import Mathlib

/-!
Shallow embedding of `gst-libs/gst/gl/gstglmemorypbo.c` (PBO-backed GL texture
memory): the capability probes, the GPU memory object data model, the mapping
protocol, the transfer engine and the copy engine, together with theorems
checking the claims of the specification about them.

GL calls are modelled by an explicit trace of `GLOp` values emitted by each
operation, so that statements about state restoration, transfer counts and
resource balance can be made about every execution path.
-/

namespace GstGLMemPBO

/-- GL API family flag set (`GstGLAPI` bit mask). -/
structure GstGLAPI where
  opengl : Bool
  opengl3 : Bool
  gles2 : Bool
deriving DecidableEq

def GST_GL_API_OPENGL : GstGLAPI := ⟨true, false, false⟩

def GST_GL_API_OPENGL3 : GstGLAPI := ⟨false, true, false⟩

def GST_GL_API_GLES2 : GstGLAPI := ⟨false, false, true⟩

/-- Bitwise or of two API flag sets, as in `GST_GL_API_OPENGL | GST_GL_API_OPENGL3`. -/
def GstGLAPI.join (a b : GstGLAPI) : GstGLAPI :=
  ⟨a.opengl || b.opengl, a.opengl3 || b.opengl3, a.gles2 || b.gles2⟩

/-- Whether two API flag sets have a non-empty intersection (`a & b` nonzero). -/
def GstGLAPI.meets (a b : GstGLAPI) : Bool :=
  (a.opengl && b.opengl) || (a.opengl3 && b.opengl3) || (a.gles2 && b.gles2)

/-- A GL context description: API family, context GL version, and which of the
optional function-table entries used by this file are non-NULL
(`gl->GenFramebuffers`, `gl->GenBuffers`). -/
structure GstGLContext where
  api : GstGLAPI
  majVer : Nat
  minVer : Nat
  hasGenFramebuffers : Bool
  hasGenBuffers : Bool
deriving DecidableEq

/-- Modelled from the spec: the graphics-context capability query
(`gst_gl_context_check_gl_version`, which lives outside `src/`): the context
API family must intersect `api` and the context version must be at least
`maj.vmin`. -/
def gst_gl_context_check_gl_version (c : GstGLContext) (api : GstGLAPI)
    (maj vmin : Nat) : Bool :=
  c.api.meets api &&
    (decide (maj < c.majVer) || (decide (c.majVer = maj) && decide (vmin ≤ c.minVer)))

/-- `USING_OPENGL` (source line 53). -/
def USING_OPENGL (c : GstGLContext) : Bool :=
  gst_gl_context_check_gl_version c GST_GL_API_OPENGL 1 0

/-- `USING_OPENGL3` (source line 54). -/
def USING_OPENGL3 (c : GstGLContext) : Bool :=
  gst_gl_context_check_gl_version c GST_GL_API_OPENGL3 3 1

/-- `USING_GLES2` (source line 56). -/
def USING_GLES2 (c : GstGLContext) : Bool :=
  gst_gl_context_check_gl_version c GST_GL_API_GLES2 2 0

/-- `USING_GLES3` (source line 57). -/
def USING_GLES3 (c : GstGLContext) : Bool :=
  gst_gl_context_check_gl_version c GST_GL_API_GLES2 3 0

/-- `CONTEXT_SUPPORTS_PBO_UPLOAD` (source lines 63-66). -/
def CONTEXT_SUPPORTS_PBO_UPLOAD (c : GstGLContext) : Bool :=
  gst_gl_context_check_gl_version c (GST_GL_API_OPENGL.join GST_GL_API_OPENGL3) 2 1
    || gst_gl_context_check_gl_version c GST_GL_API_GLES2 3 0

/-- `CONTEXT_SUPPORTS_PBO_DOWNLOAD` (source lines 67-69). -/
def CONTEXT_SUPPORTS_PBO_DOWNLOAD (c : GstGLContext) : Bool :=
  gst_gl_context_check_gl_version c
    ((GST_GL_API_OPENGL.join GST_GL_API_OPENGL3).join GST_GL_API_GLES2) 3 0

/-- Texture targets (`GstGLTextureTarget`). -/
inductive GstGLTextureTarget
  | twoD
  | rectangle
  | externalOes
deriving DecidableEq

/-- Texel formats (`GstVideoGLTextureType`). -/
inductive GstVideoGLTextureType
  | rgba
  | rgb
  | rgb16
  | luminance
  | luminanceAlpha
  | rg
  | r
deriving DecidableEq

def GL_TEXTURE_2D : Nat := 0x0DE1

def GL_TEXTURE_RECTANGLE : Nat := 0x84F5

def GL_TEXTURE_EXTERNAL_OES : Nat := 0x8D65

def GL_PIXEL_PACK_BUFFER : Nat := 0x88EB

def GL_PIXEL_UNPACK_BUFFER : Nat := 0x88EC

def GL_RGBA : Nat := 0x1908

def GL_RGB : Nat := 0x1907

def GL_LUMINANCE : Nat := 0x1909

def GL_LUMINANCE_ALPHA : Nat := 0x190A

def GL_RED : Nat := 0x1903

def GL_RG : Nat := 0x8227

def GL_UNSIGNED_BYTE : Nat := 0x1401

def GL_UNSIGNED_SHORT_5_6_5 : Nat := 0x8363

/-- Modelled from the spec: `gst_gl_texture_target_to_gl` (outside `src/`),
mapping a texture target to its GL enum. -/
def gst_gl_texture_target_to_gl : GstGLTextureTarget → Nat
  | GstGLTextureTarget.twoD => GL_TEXTURE_2D
  | GstGLTextureTarget.rectangle => GL_TEXTURE_RECTANGLE
  | GstGLTextureTarget.externalOes => GL_TEXTURE_EXTERNAL_OES

/-- Modelled from the spec: `gst_gl_format_from_gl_texture_type` (outside
`src/`), mapping a texel format to the corresponding GL pixel format enum. -/
def gst_gl_format_from_gl_texture_type : GstVideoGLTextureType → Nat
  | GstVideoGLTextureType.rgba => GL_RGBA
  | GstVideoGLTextureType.rgb => GL_RGB
  | GstVideoGLTextureType.rgb16 => GL_RGB
  | GstVideoGLTextureType.luminance => GL_LUMINANCE
  | GstVideoGLTextureType.luminanceAlpha => GL_LUMINANCE_ALPHA
  | GstVideoGLTextureType.rg => GL_RG
  | GstVideoGLTextureType.r => GL_RED

/-- The GL pixel type chosen for a texel format: `GL_UNSIGNED_SHORT_5_6_5` for
RGB16, `GL_UNSIGNED_BYTE` otherwise (source lines 164-166 and 482-484). -/
def gl_type_for (t : GstVideoGLTextureType) : Nat :=
  if t = GstVideoGLTextureType.rgb16 then GL_UNSIGNED_SHORT_5_6_5 else GL_UNSIGNED_BYTE

/-- The staging buffer (`GstGLBuffer`, the PBO): buffer object id, byte size,
CPU backing-storage pointer (`mem.data`, an abstract address), and its own
`NEED_UPLOAD` transfer flag. -/
structure GstGLBuffer where
  id : Nat
  size : Nat
  data : Option Nat
  needUpload : Bool
deriving DecidableEq

/-- The GPU memory object (`GstGLMemoryPBO`): texture handle, target, texel
format, per-plane geometry (`GL_MEM_WIDTH/HEIGHT/STRIDE`, `unpack_length`,
total byte size), the two transfer flags, the external-ownership mark and the
optional staging buffer. -/
structure GstGLMemoryPBO where
  texId : Nat
  texTarget : GstGLTextureTarget
  texType : GstVideoGLTextureType
  texWidth : Nat
  planeHeight : Nat
  planeStride : Nat
  unpackLength : Nat
  size : Nat
  needUpload : Bool
  needDownload : Bool
  textureWrapped : Bool
  pbo : Option GstGLBuffer
deriving DecidableEq

/-- One GL API call relevant to the claims, recorded in execution traces. -/
inductive GLOp
  | pixelStoreUnpackRowLength (v : Nat)
  | pixelStoreUnpackAlignment (v : Nat)
  | bindBuffer (target id : Nat)
  | bindTexture (target id : Nat)
  | texSubImage2D (target texId : Nat)
  | readPixelsInto (pboId : Nat)
  | genTexture (id : Nat)
  | texImage2D (id : Nat)
  | texParam (id : Nat)
  | genFramebuffer
  | bindFramebuffer (id : Nat)
  | framebufferTexture2D (srcTexId : Nat)
  | deleteFramebuffer
  | copyTexImage (destTexId : Nat)
  | directUpload (texId : Nat)
  | directDownload (texId : Nat)
deriving DecidableEq

/-- The row-length/alignment pixel-store GL state mutated by the upload path. -/
structure PixelStoreState where
  unpackRowLength : Nat
  unpackAlignment : Nat
deriving DecidableEq

/-- GL default pixel-store state: `GL_UNPACK_ROW_LENGTH = 0`,
`GL_UNPACK_ALIGNMENT = 4`. -/
def defaultPixelStore : PixelStoreState := ⟨0, 4⟩

/-- Effect of one GL call on the pixel-store state. -/
def PixelStoreState.applyOp : PixelStoreState → GLOp → PixelStoreState
  | s, GLOp.pixelStoreUnpackRowLength v => { s with unpackRowLength := v }
  | s, GLOp.pixelStoreUnpackAlignment v => { s with unpackAlignment := v }
  | s, _ => s

/-- Pixel-store state after running a trace from the default state. -/
def pixelStoreAfter (ops : List GLOp) : PixelStoreState :=
  ops.foldl PixelStoreState.applyOp defaultPixelStore

/-- Whether a GL call mutates the row-length/alignment pixel-store state. -/
def GLOp.touchesPixelStore : GLOp → Bool
  | GLOp.pixelStoreUnpackRowLength _ => true
  | GLOp.pixelStoreUnpackAlignment _ => true
  | _ => false

/-- Whether a trace mutates the row-length/alignment pixel-store state. -/
def mutatesPixelStore (ops : List GLOp) : Bool :=
  ops.any GLOp.touchesPixelStore

/-- `_upload_pbo_memory` (source lines 146-200): returns the GL call trace of
one upload-from-staging operation.  Nothing is done when `NEED_UPLOAD` is clear
or when the context fails the `g_return_if_fail` PBO-upload capability check;
otherwise the row-length (OpenGL, GLES3, OpenGL3) or alignment (GLES2)
pixel-store state is set, the sub-image upload is issued from the bound PBO,
and then only the OpenGL/GLES3 (row length) and GLES2 (alignment) cases are
reset to defaults. -/
def upload_pbo_memory (c : GstGLContext) (m : GstGLMemoryPBO) (pboId : Nat) :
    List GLOp :=
  if !m.needUpload then []
  else if !CONTEXT_SUPPORTS_PBO_UPLOAD c then []
  else
    let tgt := gst_gl_texture_target_to_gl m.texTarget
    (if USING_OPENGL c || USING_GLES3 c || USING_OPENGL3 c then
      [GLOp.pixelStoreUnpackRowLength m.unpackLength]
    else if USING_GLES2 c then
      [GLOp.pixelStoreUnpackAlignment m.unpackLength]
    else []) ++
    [GLOp.bindBuffer GL_PIXEL_UNPACK_BUFFER pboId,
     GLOp.bindTexture tgt m.texId,
     GLOp.texSubImage2D tgt m.texId,
     GLOp.bindBuffer GL_PIXEL_UNPACK_BUFFER 0,
     GLOp.bindTexture tgt 0] ++
    (if USING_OPENGL c || USING_GLES3 c then
      [GLOp.pixelStoreUnpackRowLength 0]
    else if USING_GLES2 c then
      [GLOp.pixelStoreUnpackAlignment 4]
    else [])

/-- Outcomes of the external calls a transfer can make: whether each kind of
`gst_memory_map` on the staging buffer succeeds, and whether the pixel
readback succeeds.  These model driver/collaborator behaviour the code reacts
to. -/
structure TransferEnv where
  pboGlWriteMapOk : Bool
  pboGlReadMapOk : Bool
  pboCpuMapOk : Bool
  readPixelsOk : Bool
deriving DecidableEq

/-- `_read_pixels_to_pbo` (source lines 277-313): fails when there is no
staging buffer, staged download is unsupported, or the format is
luminance/luminance-alpha; otherwise, when `NEED_DOWNLOAD` is set, maps the
PBO for GL writing and reads the texture pixels into it.  Returns success plus
the GL trace. -/
def read_pixels_to_pbo (c : GstGLContext) (m : GstGLMemoryPBO)
    (env : TransferEnv) : Bool × List GLOp :=
  match m.pbo with
  | none => (false, [])
  | some pb =>
    if !CONTEXT_SUPPORTS_PBO_DOWNLOAD c
        || m.texType = GstVideoGLTextureType.luminance
        || m.texType = GstVideoGLTextureType.luminanceAlpha then
      (false, [])
    else if m.needDownload then
      if !env.pboGlWriteMapOk then (false, [])
      else if !env.readPixelsOk then (false, [])
      else (true, [GLOp.readPixelsInto pb.id])
    else (true, [])

/-- CPU/GPU map request flags (`GST_MAP_READ`, `GST_MAP_WRITE`, `GST_MAP_GL`). -/
structure MapFlags where
  read : Bool
  write : Bool
  gl : Bool
deriving DecidableEq

def GST_MAP_READ_GL : MapFlags := ⟨true, false, true⟩

def GST_MAP_READ_CPU : MapFlags := ⟨true, false, false⟩

/-- What a successful map returns: the raw texture handle, a CPU pointer into
the staging buffer, or a plain system-memory pointer. -/
inductive MapData
  | texHandle (id : Nat)
  | pboPtr (id : Nat)
  | sysPtr
deriving DecidableEq

/-- Result of a map request: returned data (`none` = the map failed), the
memory object afterwards, and the GL trace produced. -/
structure MapOutcome where
  ret : Option MapData
  mem : GstGLMemoryPBO
  ops : List GLOp
deriving DecidableEq

/-- `_pbo_download_transfer` (source lines 315-355): on a read with
`NEED_DOWNLOAD` pending, maps the PBO for GL writing and refreshes it from the
texture, failing if either step fails; then maps the PBO with the flags of the
caller and returns a CPU pointer into it. -/
def pbo_download_transfer (c : GstGLContext) (m : GstGLMemoryPBO)
    (pb : GstGLBuffer) (flags : MapFlags) (env : TransferEnv) :
    Option (MapData × List GLOp) :=
  if flags.read && m.needDownload then
    if !env.pboGlWriteMapOk then none
    else
      let rp := read_pixels_to_pbo c m env
      if !rp.1 then none
      else if !env.pboCpuMapOk then none
      else some (MapData.pboPtr pb.id, rp.2)
  else
    if !env.pboCpuMapOk then none
    else some (MapData.pboPtr pb.id, [])

/-- Modelled from the spec: the parent `GstGLMemory` GPU-side map (outside
`src/`): returns the texture handle, performing a direct upload that bypasses
the staging buffer when `NEED_UPLOAD` is pending. -/
def parent_gpu_map (m : GstGLMemoryPBO) : MapOutcome :=
  ⟨some (MapData.texHandle m.texId), m,
    if m.needUpload then [GLOp.directUpload m.texId] else []⟩

/-- Modelled from the spec: the parent `GstGLMemory` CPU-side map (outside
`src/`): returns a system-memory pointer, performing a direct synchronous
pixel readback when a read finds `NEED_DOWNLOAD` pending. -/
def parent_cpu_map (m : GstGLMemoryPBO) (flags : MapFlags) : MapOutcome :=
  ⟨some MapData.sysPtr, m,
    if flags.read && m.needDownload then [GLOp.directDownload m.texId] else []⟩

/-- `_gl_mem_map_cpu_access` (source lines 357-377): tries the staged download
path when a staging buffer exists and staged download is supported, falling
back to the parent (direct) CPU map otherwise or on failure. -/
def gl_mem_map_cpu_access (c : GstGLContext) (m : GstGLMemoryPBO)
    (flags : MapFlags) (env : TransferEnv) : MapOutcome :=
  match m.pbo with
  | some pb =>
    if CONTEXT_SUPPORTS_PBO_DOWNLOAD c then
      match pbo_download_transfer c m pb flags env with
      | some (d, ops) => ⟨some d, m, ops⟩
      | none => parent_cpu_map m flags
    else parent_cpu_map m flags
  | none => parent_cpu_map m flags

/-- `_gl_mem_map_gpu_access` (source lines 379-409): a read with a staging
buffer on a PBO-upload-capable context maps the PBO and runs
`_upload_pbo_memory`; otherwise a read falls back to the parent (direct) GPU
map.  A non-read GL map just returns the handle. -/
def gl_mem_map_gpu_access (c : GstGLContext) (m : GstGLMemoryPBO)
    (flags : MapFlags) (env : TransferEnv) : MapOutcome :=
  if flags.read then
    match m.pbo with
    | some pb =>
      if CONTEXT_SUPPORTS_PBO_UPLOAD c then
        if !env.pboGlReadMapOk then ⟨none, m, []⟩
        else ⟨some (MapData.texHandle m.texId), m, upload_pbo_memory c m pb.id⟩
      else parent_gpu_map m
    | none => parent_gpu_map m
  else ⟨some (MapData.texHandle m.texId), m, []⟩

/-- `_gl_mem_map` (source lines 411-431): a GL map of an external-OES object
returns the raw handle directly; a non-GL map of an external-OES object is a
hard error; otherwise dispatch to the GPU or CPU access path. -/
def gl_mem_map (c : GstGLContext) (m : GstGLMemoryPBO) (flags : MapFlags)
    (env : TransferEnv) : MapOutcome :=
  if flags.gl then
    if m.texTarget = GstGLTextureTarget.externalOes then
      ⟨some (MapData.texHandle m.texId), m, []⟩
    else gl_mem_map_gpu_access c m flags env
  else
    if m.texTarget = GstGLTextureTarget.externalOes then ⟨none, m, []⟩
    else gl_mem_map_cpu_access c m flags env

/-- Modelled from the spec: the base-memory map wrapper (gstglbasememory.c,
outside `src/`) that invokes `_gl_mem_map` and, on success, resolves the
pending flag of the side just read: a GL read map clears `NEED_UPLOAD`, a CPU
read map clears `NEED_DOWNLOAD`. -/
def gst_memory_map_full (c : GstGLContext) (m : GstGLMemoryPBO)
    (flags : MapFlags) (env : TransferEnv) : MapOutcome :=
  let o := gl_mem_map c m flags env
  match o.ret with
  | none => o
  | some _ =>
    if flags.gl then
      if flags.read then { o with mem := { o.mem with needUpload := false } } else o
    else
      if flags.read then { o with mem := { o.mem with needDownload := false } } else o

/-- Per-plane geometry handed to the constructors (derived by the external
video-info collaborator from the geometry and alignment descriptors). -/
structure VideoGeometry where
  texWidth : Nat
  planeHeight : Nat
  planeStride : Nat
  unpackLength : Nat
  size : Nat
deriving DecidableEq

/-- `_gl_mem_new` / `_gl_mem_init` (source lines 249-275): a zero-initialised
object with `texture_wrapped = FALSE`, both transfer flags clear, no texture
handle yet and no staging buffer. -/
def gl_mem_new (target : GstGLTextureTarget) (ty : GstVideoGLTextureType)
    (g : VideoGeometry) : GstGLMemoryPBO :=
  { texId := 0, texTarget := target, texType := ty, texWidth := g.texWidth,
    planeHeight := g.planeHeight, planeStride := g.planeStride,
    unpackLength := g.unpackLength, size := g.size,
    needUpload := false, needDownload := false,
    textureWrapped := false, pbo := none }

/-- `_gl_mem_create` (source lines 225-247), staging-buffer part: after the
parent create, a PBO sized to the memory is allocated exactly when the context
satisfies `USING_OPENGL`, `USING_OPENGL3` or `USING_GLES3`; the texture target
is not consulted. -/
def gl_mem_create (c : GstGLContext) (m : GstGLMemoryPBO) : GstGLMemoryPBO :=
  if USING_OPENGL c || USING_OPENGL3 c || USING_GLES3 c then
    { m with pbo := some { id := 1, size := m.size, data := none, needUpload := false } }
  else m

/-- Modelled from the spec: full construction of a GPU memory object — the
allocator `alloc`/`_gl_mem_init` step followed by the `create` vfunc run on
the context thread (the spec: the staging buffer is created lazily at GPU
Memory Object construction).  The parent create (outside `src/`) generates a
texture handle `newTexId` when none was wrapped; `_gl_mem_create` then adds
the staging buffer. -/
def construct_mem (c : GstGLContext) (m0 : GstGLMemoryPBO) (newTexId : Nat) :
    GstGLMemoryPBO :=
  gl_mem_create c (if m0.texId = 0 then { m0 with texId := newTexId } else m0)

/-- `gst_gl_memory_pbo_alloc` (source lines 863-875): construct an owned
object; no transfer flag is set. -/
def gst_gl_memory_pbo_alloc (c : GstGLContext) (target : GstGLTextureTarget)
    (ty : GstVideoGLTextureType) (g : VideoGeometry) (newTexId : Nat) :
    GstGLMemoryPBO :=
  construct_mem c (gl_mem_new target ty g) newTexId

/-- `gst_gl_memory_pbo_wrapped_texture` (source lines 829-848): wrap an
externally owned texture handle (`texture_wrapped = TRUE`) and set
`NEED_DOWNLOAD`. -/
def gst_gl_memory_pbo_wrapped_texture (c : GstGLContext) (textureId : Nat)
    (target : GstGLTextureTarget) (ty : GstVideoGLTextureType)
    (g : VideoGeometry) : GstGLMemoryPBO :=
  let m := construct_mem c
    { gl_mem_new target ty g with texId := textureId, textureWrapped := true } 0
  { m with needDownload := true }

/-- The wrap-CPU-data store shared by `gst_gl_memory_pbo_wrapped` (source
lines 905-910) and `_gl_mem_pbo_alloc` (source lines 723-730): point the
backing storage of the staging buffer at the caller address `d` and set
`NEED_UPLOAD` on both the object and the staging buffer.  In both call sites
the store `mem->pbo->mem.data = data` happens before any null check of
`mem->pbo`, so a missing staging buffer is dereferenced: that execution is
modelled as `none`. -/
def wrap_sysmem_store (m : GstGLMemoryPBO) (d : Nat) : Option GstGLMemoryPBO :=
  match m.pbo with
  | none => none
  | some pb =>
    some { m with
      pbo := some { pb with data := some d, needUpload := true },
      needUpload := true }

/-- `gst_gl_memory_pbo_wrapped` (source lines 893-913): construct a fresh
object, then wrap the caller CPU data through the unguarded staging-buffer
store. -/
def gst_gl_memory_pbo_wrapped (c : GstGLContext) (target : GstGLTextureTarget)
    (ty : GstVideoGLTextureType) (g : VideoGeometry) (newTexId : Nat)
    (d : Nat) : Option GstGLMemoryPBO :=
  wrap_sysmem_store (construct_mem c (gl_mem_new target ty g) newTexId) d

/-- The allocation-parameter flags consumed by `_gl_mem_pbo_alloc`
(`GstGLVideoAllocationParams`). -/
structure GLAllocationParams where
  flagVideo : Bool
  wrapGpuHandle : Bool
  wrapSysmem : Bool
  glHandle : Nat
  wrappedData : Nat
deriving DecidableEq

/-- `_gl_mem_pbo_alloc` (source lines 695-733): the allocator `alloc` vfunc.
With `WRAP_GPU_HANDLE` the given handle is wrapped (`texture_wrapped = TRUE`,
`NEED_DOWNLOAD` set afterwards).  With `WRAP_SYSMEM` the store
`mem->pbo->mem.data = wrapped_data` (line 725) and the two `NEED_UPLOAD` flag
sets (lines 727-729) dereference the staging buffer with no null guard at all,
modelled as `none` when it is absent. -/
def gl_mem_pbo_alloc (c : GstGLContext) (target : GstGLTextureTarget)
    (ty : GstVideoGLTextureType) (g : VideoGeometry) (p : GLAllocationParams)
    (newTexId : Nat) : Option GstGLMemoryPBO :=
  if !p.flagVideo then none
  else
    let m0 := gl_mem_new target ty g
    let m1 := if p.wrapGpuHandle then
        { m0 with texId := p.glHandle, textureWrapped := true }
      else m0
    let m2 := construct_mem c m1 newTexId
    let m3 := if p.wrapGpuHandle then { m2 with needDownload := true } else m2
    if p.wrapSysmem then wrap_sysmem_store m3 p.wrappedData
    else some m3

/-- Modelled from the spec: teardown.  `_gl_mem_destroy` (source lines
678-687) releases the staging buffer first; the parent destroy (outside
`src/`) then destroys the texture handle exactly when it was not wrapped from
an external owner.  Returns the number of handle-destroy calls the
destruction hook of the spec would count. -/
def teardown_destroy_count (m : GstGLMemoryPBO) : Nat :=
  if m.textureWrapped then 0 else 1

/-- Inputs of the texture-to-texture copy (`GstGLMemoryPBOCopyParams`, source
lines 107-120). -/
structure CopyParams where
  outFormat : GstVideoGLTextureType
  outWidth : Nat
  outHeight : Nat
  outStride : Nat
  respecify : Bool
  texTarget : GstGLTextureTarget
  texId : Nat
deriving DecidableEq

/-- Result of `_gl_mem_copy_thread`: the inout `tex_id`, the `result` flag,
and the GL trace. -/
structure CopyOut where
  texId : Nat
  result : Bool
  ops : List GLOp
deriving DecidableEq

/-- `_new_texture` (source lines 202-223): GL trace of creating a texture; the
storage (`TexImage2D`) is only allocated for 2D and rectangle targets. -/
def new_texture_ops (target : Nat) (texId : Nat) : List GLOp :=
  [GLOp.genTexture texId, GLOp.bindTexture target texId] ++
  (if target = GL_TEXTURE_2D || target = GL_TEXTURE_RECTANGLE then
    [GLOp.texImage2D texId]
  else []) ++
  [GLOp.texParam texId, GLOp.texParam texId, GLOp.texParam texId,
   GLOp.texParam texId, GLOp.bindTexture target 0]

/-- `_gl_mem_copy_thread` (source lines 454-606).  `newTexId` is the handle
the driver assigns when a destination texture must be created;
`env.pboGlReadMapOk` is whether mapping the source PBO for GL reading
succeeds.  Error exits before the framebuffer is generated produce an empty
trace and leave `tex_id` unchanged; failures after it (`fbo_error`) delete the
framebuffer and zero `tex_id`. -/
def gl_mem_copy_thread (c : GstGLContext) (src : GstGLMemoryPBO)
    (p : CopyParams) (env : TransferEnv) (newTexId : Nat) : CopyOut :=
  let outTarget := gst_gl_texture_target_to_gl p.texTarget
  let inGlFormat := gst_gl_format_from_gl_texture_type src.texType
  let inGlType := gl_type_for src.texType
  if !c.hasGenFramebuffers then
    { texId := p.texId, result := false, ops := [] }
  else
    let inSize := src.planeHeight * src.planeStride
    let outSize := p.outHeight * p.outStride
    if p.respecify = true ∧ inSize ≠ outSize then
      { texId := p.texId, result := false, ops := [] }
    else
      let texId := if p.texId = 0 then newTexId else p.texId
      let texOps := if p.texId = 0 then new_texture_ops outTarget newTexId else []
      let fboOps :=
        [GLOp.genFramebuffer, GLOp.bindFramebuffer 1,
         GLOp.framebufferTexture2D src.texId,
         GLOp.bindTexture outTarget texId]
      if p.respecify then
        if !c.hasGenBuffers || src.pbo.isNone then
          { texId := 0, result := false,
            ops := texOps ++ fboOps ++
              [GLOp.bindTexture outTarget 0, GLOp.deleteFramebuffer] }
        else if c.api.meets GST_GL_API_GLES2
            && (decide (inGlFormat ≠ GL_RGBA) || decide (inGlType ≠ GL_UNSIGNED_BYTE)) then
          { texId := 0, result := false,
            ops := texOps ++ fboOps ++
              [GLOp.bindTexture outTarget 0, GLOp.deleteFramebuffer] }
        else
          let rp := read_pixels_to_pbo c src env
          if !env.pboGlReadMapOk then
            { texId := 0, result := false,
              ops := texOps ++ fboOps ++ rp.2 ++ [GLOp.deleteFramebuffer] }
          else
            { texId := texId, result := true,
              ops := texOps ++ fboOps ++ rp.2 ++
                [GLOp.texSubImage2D outTarget texId,
                 GLOp.bindTexture outTarget 0, GLOp.bindFramebuffer 0,
                 GLOp.deleteFramebuffer] }
      else
        { texId := texId, result := true,
          ops := texOps ++ fboOps ++
            [GLOp.copyTexImage texId, GLOp.bindTexture outTarget 0,
             GLOp.bindFramebuffer 0, GLOp.deleteFramebuffer] }

/-- `gst_gl_memory_pbo_copy_into_texture` (source lines 793-813): dispatches
`_gl_mem_copy_thread` to the context thread and returns its `result`. -/
def gst_gl_memory_pbo_copy_into_texture (c : GstGLContext)
    (src : GstGLMemoryPBO) (p : CopyParams) (env : TransferEnv)
    (newTexId : Nat) : Bool :=
  (gl_mem_copy_thread c src p env newTexId).result

/-- How `_gl_mem_copy` served (or failed) a copy request. -/
inductive MemCopyResult
  | failed
  | sysmemFallback
  | glCopy (viaMemcpy : Bool)
deriving DecidableEq

/-- Outcomes of the external calls `_gl_mem_copy` can make. -/
structure MemCopyEnv where
  memcpyOk : Bool
  destMapOk : Bool
  texCopyOk : Bool
deriving DecidableEq

/-- `_gl_mem_copy` (source lines 608-666): external-OES sources are never
copied; a request with `offset > 0` or `size < src->size` goes to the
system-memory fallback copy; otherwise a fresh GL memory is filled either by
`gst_gl_base_memory_memcpy` (when `NEED_UPLOAD` is pending) or by a GPU
texture copy.  `offset` and `size` are `gssize` (signed). -/
def gl_mem_copy (src : GstGLMemoryPBO) (offset size : Int) (env : MemCopyEnv) :
    MemCopyResult :=
  if src.texTarget = GstGLTextureTarget.externalOes then MemCopyResult.failed
  else if 0 < offset ∨ size < (src.size : Int) then MemCopyResult.sysmemFallback
  else if src.needUpload then
    if env.memcpyOk then MemCopyResult.glCopy true else MemCopyResult.failed
  else
    if !env.destMapOk then MemCopyResult.failed
    else if !env.texCopyOk then MemCopyResult.failed
    else MemCopyResult.glCopy false

/-- Count of `GenFramebuffers` calls in a trace. -/
def isFboGen : GLOp → Bool
  | GLOp.genFramebuffer => true
  | _ => false

/-- Count of `DeleteFramebuffers` calls in a trace. -/
def isFboDel : GLOp → Bool
  | GLOp.deleteFramebuffer => true
  | _ => false

def fboGenCount (ops : List GLOp) : Nat := ops.countP isFboGen

def fboDelCount (ops : List GLOp) : Nat := ops.countP isFboDel

/-- Whether a GL call is an upload transfer into a texture (staged sub-image
upload or direct fallback upload). -/
def isTexUpload : GLOp → Bool
  | GLOp.texSubImage2D _ _ => true
  | GLOp.directUpload _ => true
  | _ => false

def uploadCount (ops : List GLOp) : Nat := ops.countP isTexUpload

/-- A desktop OpenGL 2.0 context (all function-table entries present). -/
def ctxOpenGL20 : GstGLContext :=
  { api := GST_GL_API_OPENGL, majVer := 2, minVer := 0,
    hasGenFramebuffers := true, hasGenBuffers := true }

/-- A desktop OpenGL 2.1 context. -/
def ctxOpenGL21 : GstGLContext :=
  { api := GST_GL_API_OPENGL, majVer := 2, minVer := 1,
    hasGenFramebuffers := true, hasGenBuffers := true }

/-- A core-profile OpenGL3 context at version 3.1 (API family `OPENGL3` only). -/
def ctxOpenGL3Only : GstGLContext :=
  { api := GST_GL_API_OPENGL3, majVer := 3, minVer := 1,
    hasGenFramebuffers := true, hasGenBuffers := true }

/-- A GLES 3.0 context. -/
def ctxGLES3 : GstGLContext :=
  { api := GST_GL_API_GLES2, majVer := 3, minVer := 0,
    hasGenFramebuffers := true, hasGenBuffers := true }

/-- A 32x32 RGBA plane with a 128-byte stride and an 8-texel unpack length. -/
def gSample : VideoGeometry :=
  { texWidth := 32, planeHeight := 32, planeStride := 128,
    unpackLength := 8, size := 4096 }

/-- A sample staging buffer. -/
def pbSample : GstGLBuffer := { id := 1, size := 4096, data := none, needUpload := false }

/-- A sample memory object with a pending `NEED_UPLOAD`, used to exercise the
upload-from-staging path. -/
def memSampleUpload : GstGLMemoryPBO :=
  { gl_mem_new GstGLTextureTarget.twoD GstVideoGLTextureType.rgba gSample with
    texId := 7, needUpload := true, pbo := some pbSample }

/-- A sample external-OES memory object. -/
def memSampleExternal : GstGLMemoryPBO :=
  { gl_mem_new GstGLTextureTarget.externalOes GstVideoGLTextureType.rgba gSample with
    texId := 9, needUpload := true, needDownload := true }

/-- An environment in which every external call succeeds. -/
def envAllOk : TransferEnv :=
  { pboGlWriteMapOk := true, pboGlReadMapOk := true,
    pboCpuMapOk := true, readPixelsOk := true }

def memCopyEnvAllOk : MemCopyEnv :=
  { memcpyOk := true, destMapOk := true, texCopyOk := true }

/-- C1: for every call of the copy operation with `respecify = true`, if the
destination byte size `out_height * out_stride` differs from the source byte
size (source plane height times source plane stride), the copy fails
(`result = FALSE`), issues no GL call at all — in particular the destination
texture is not mutated — and leaves the inout destination texture id
unchanged. -/
theorem c1_respecify_size_mismatch_fails (c : GstGLContext)
    (src : GstGLMemoryPBO) (p : CopyParams) (env : TransferEnv) (newTexId : Nat)
    (hr : p.respecify = true)
    (hs : p.outHeight * p.outStride ≠ src.planeHeight * src.planeStride) :
    (gl_mem_copy_thread c src p env newTexId).result = false ∧
    (gl_mem_copy_thread c src p env newTexId).ops = [] ∧
    (gl_mem_copy_thread c src p env newTexId).texId = p.texId := by
  unfold gl_mem_copy_thread
  by_cases hf : c.hasGenFramebuffers
  · simp [hf, hr, Ne.symm hs]
  · simp [hf]

/-- C1 witness: respecifying a 32x128-byte-per-row 32-row plane into a 16x128
destination fails without a single GL call. -/
theorem c1_respecify_size_mismatch_fails_witness :
    (gl_mem_copy_thread ctxOpenGL21 memSampleUpload
      { outFormat := GstVideoGLTextureType.rg, outWidth := 64, outHeight := 16,
        outStride := 128, respecify := true,
        texTarget := GstGLTextureTarget.twoD, texId := 5 } envAllOk 6).result = false ∧
    (gl_mem_copy_thread ctxOpenGL21 memSampleUpload
      { outFormat := GstVideoGLTextureType.rg, outWidth := 64, outHeight := 16,
        outStride := 128, respecify := true,
        texTarget := GstGLTextureTarget.twoD, texId := 5 } envAllOk 6).ops = [] ∧
    (gl_mem_copy_thread ctxOpenGL21 memSampleUpload
      { outFormat := GstVideoGLTextureType.rg, outWidth := 64, outHeight := 16,
        outStride := 128, respecify := true,
        texTarget := GstGLTextureTarget.twoD, texId := 5 } envAllOk 6).texId = 5 :=
  c1_respecify_size_mismatch_fails ctxOpenGL21 memSampleUpload
    { outFormat := GstVideoGLTextureType.rg, outWidth := 64, outHeight := 16,
      outStride := 128, respecify := true,
      texTarget := GstGLTextureTarget.twoD, texId := 5 } envAllOk 6
    rfl (by decide)

/-- C2 (code bug): on a pure OpenGL3 context (API family `OPENGL3`, version
3.1) the upload-from-staging path sets `GL_UNPACK_ROW_LENGTH` — the set branch
(source lines 171-176) tests OPENGL, GLES3 or OPENGL3 — but the reset branch
(source lines 194-199, under the comment `Reset to default values`) tests only
OPENGL or GLES3, so the mutated row-length state is left at the plane value
instead of the default 0 when the operation returns. -/
theorem c2_opengl3_rowlength_not_restored :
    mutatesPixelStore (upload_pbo_memory ctxOpenGL3Only memSampleUpload 1) = true ∧
    pixelStoreAfter (upload_pbo_memory ctxOpenGL3Only memSampleUpload 1)
      ≠ defaultPixelStore ∧
    CONTEXT_SUPPORTS_PBO_UPLOAD ctxOpenGL3Only = true := by
  decide

/-- C3: for every GPU memory object whose texture target is external-OES, a GL
map returns the raw texture handle directly with an empty GL trace (no
transfer, whatever the dirty flags) and an unchanged object, and a non-GL
(CPU) map fails with an empty trace and an unchanged object. -/
theorem c3_external_oes_mapping (c : GstGLContext) (m : GstGLMemoryPBO)
    (flags : MapFlags) (env : TransferEnv)
    (hext : m.texTarget = GstGLTextureTarget.externalOes) :
    (flags.gl = true →
      gl_mem_map c m flags env
        = ⟨some (MapData.texHandle m.texId), m, []⟩) ∧
    (flags.gl = false →
      gl_mem_map c m flags env = ⟨none, m, []⟩) := by
  unfold gl_mem_map
  constructor
  · intro hgl; simp [hgl, hext]
  · intro hgl; simp [hgl, hext]

/-- C3 witness: on a concrete external-OES object with both dirty flags set,
the GL map returns the raw handle with no GL call and the CPU map fails with
no GL call, both leaving the object unchanged. -/
theorem c3_external_oes_mapping_witness :
    (gl_mem_map ctxGLES3 memSampleExternal GST_MAP_READ_GL envAllOk
      = ⟨some (MapData.texHandle memSampleExternal.texId), memSampleExternal, []⟩) ∧
    (gl_mem_map ctxGLES3 memSampleExternal GST_MAP_READ_CPU envAllOk
      = ⟨none, memSampleExternal, []⟩) :=
  ⟨(c3_external_oes_mapping ctxGLES3 memSampleExternal GST_MAP_READ_GL envAllOk
      rfl).1 rfl,
   (c3_external_oes_mapping ctxGLES3 memSampleExternal GST_MAP_READ_CPU envAllOk
      rfl).2 rfl⟩

/-- C4 counterexample: on an OpenGL 2.0 context a staging buffer IS allocated
at construction although the context supports neither staged upload nor staged
download (the create test `USING_OPENGL` accepts any OpenGL version while the
capability macros require 2.1/3.0); and on a GLES3 context an object with the
external-OES target also acquires a staging buffer (the create path never
consults the texture target).  Both refute the claim. -/
theorem c4_pbo_creation_counterexample :
    ((gl_mem_create ctxOpenGL20
        (gl_mem_new GstGLTextureTarget.twoD GstVideoGLTextureType.rgba gSample)).pbo.isSome
      = true) ∧
    CONTEXT_SUPPORTS_PBO_UPLOAD ctxOpenGL20 = false ∧
    CONTEXT_SUPPORTS_PBO_DOWNLOAD ctxOpenGL20 = false ∧
    ((gl_mem_create ctxGLES3
        (gl_mem_new GstGLTextureTarget.externalOes GstVideoGLTextureType.rgba gSample)).pbo.isSome
      = true) := by
  decide

/-- C4 amended: at construction a staging buffer is created if and only if the
context is OpenGL (any version), OpenGL3 at version 3.1 or later, or GLES at
version 3.0 or later — a condition that does not coincide with supporting
staging-buffer transfers — and its creation is independent of the texture
target (external/opaque objects also acquire one).  Absence of the staging
buffer is a valid state: a map of a non-external object still succeeds through
the direct fallback paths. -/
theorem c4_pbo_creation_amended (c : GstGLContext) (m : GstGLMemoryPBO)
    (h : m.pbo = none) :
    ((gl_mem_create c m).pbo.isSome
        = (USING_OPENGL c || USING_OPENGL3 c || USING_GLES3 c)) ∧
    (∀ t, (gl_mem_create c { m with texTarget := t }).pbo
        = (gl_mem_create c m).pbo) ∧
    (∀ flags env, m.texTarget ≠ GstGLTextureTarget.externalOes →
      (gl_mem_map c m flags env).ret.isSome = true) := by
  refine ⟨?_, ?_, ?_⟩
  · unfold gl_mem_create
    by_cases hc : USING_OPENGL c || USING_OPENGL3 c || USING_GLES3 c
    · simp [hc]
    · simp [hc, h]
  · intro t
    unfold gl_mem_create
    by_cases hc : USING_OPENGL c || USING_OPENGL3 c || USING_GLES3 c
    · simp [hc]
    · simp [hc, h]
  · intro flags env hext
    unfold gl_mem_map gl_mem_map_gpu_access gl_mem_map_cpu_access
      parent_gpu_map parent_cpu_map
    by_cases hgl : flags.gl
    · by_cases hrd : flags.read
      · simp [hgl, hrd, hext, h]
      · simp [hgl, hrd, hext]
    · simp [hgl, hext, h]

/-- C4 amended witness: on the OpenGL 2.0 context (which supports no staging
transfer) the staging buffer is nevertheless created, the target does not
matter, and maps of the PBO-less object succeed via the fallback. -/
theorem c4_pbo_creation_amended_witness :
    (((gl_mem_create ctxOpenGL20
        (gl_mem_new GstGLTextureTarget.twoD GstVideoGLTextureType.rgba gSample)).pbo.isSome
      = (USING_OPENGL ctxOpenGL20 || USING_OPENGL3 ctxOpenGL20 || USING_GLES3 ctxOpenGL20)) ∧
    (∀ t, (gl_mem_create ctxOpenGL20
        { gl_mem_new GstGLTextureTarget.twoD GstVideoGLTextureType.rgba gSample
            with texTarget := t }).pbo
        = (gl_mem_create ctxOpenGL20
            (gl_mem_new GstGLTextureTarget.twoD GstVideoGLTextureType.rgba gSample)).pbo) ∧
    (∀ flags env,
      (gl_mem_new GstGLTextureTarget.twoD GstVideoGLTextureType.rgba gSample).texTarget
          ≠ GstGLTextureTarget.externalOes →
      (gl_mem_map ctxOpenGL20
        (gl_mem_new GstGLTextureTarget.twoD GstVideoGLTextureType.rgba gSample)
        flags env).ret.isSome = true)) :=
  c4_pbo_creation_amended ctxOpenGL20
    (gl_mem_new GstGLTextureTarget.twoD GstVideoGLTextureType.rgba gSample) rfl

/-- C5: for every GPU memory object with `NEED_UPLOAD` set that has a staging
buffer on a PBO-upload-capable context, a GL read map performs exactly one
upload transfer before returning and clears the flag, and an immediately
following second GL read map performs zero upload transfers. -/
theorem c5_upload_resolved_exactly_once (c : GstGLContext) (m : GstGLMemoryPBO)
    (pb : GstGLBuffer) (env : TransferEnv)
    (hpbo : m.pbo = some pb)
    (hsup : CONTEXT_SUPPORTS_PBO_UPLOAD c = true)
    (hmap : env.pboGlReadMapOk = true)
    (hup : m.needUpload = true)
    (hext : m.texTarget ≠ GstGLTextureTarget.externalOes) :
    uploadCount (gst_memory_map_full c m GST_MAP_READ_GL env).ops = 1 ∧
    (gst_memory_map_full c m GST_MAP_READ_GL env).mem.needUpload = false ∧
    uploadCount (gst_memory_map_full c
      (gst_memory_map_full c m GST_MAP_READ_GL env).mem GST_MAP_READ_GL env).ops = 0 := by
  have h1 : gst_memory_map_full c m GST_MAP_READ_GL env
      = ⟨some (MapData.texHandle m.texId), { m with needUpload := false },
          upload_pbo_memory c m pb.id⟩ := by
    unfold gst_memory_map_full gl_mem_map gl_mem_map_gpu_access
    simp [GST_MAP_READ_GL, hext, hpbo, hsup, hmap]
  have h2 : uploadCount (upload_pbo_memory c m pb.id) = 1 := by
    unfold upload_pbo_memory
    simp only [hup, hsup, Bool.not_true, Bool.false_eq_true, if_false, ite_false]
    by_cases ha : USING_OPENGL c || USING_GLES3 c || USING_OPENGL3 c <;>
      by_cases hb : USING_GLES2 c <;>
      by_cases hc2 : USING_OPENGL c || USING_GLES3 c <;>
      by_cases hd : USING_OPENGL3 c <;>
        simp [ha, hb, hc2, hd, uploadCount, isTexUpload, List.countP_append,
          List.countP_cons, List.countP_nil]
  have h3 : gst_memory_map_full c { m with needUpload := false } GST_MAP_READ_GL env
      = ⟨some (MapData.texHandle m.texId), { m with needUpload := false },
          upload_pbo_memory c { m with needUpload := false } pb.id⟩ := by
    unfold gst_memory_map_full gl_mem_map gl_mem_map_gpu_access
    simp [GST_MAP_READ_GL, hext, hpbo, hsup, hmap]
  have h4 : upload_pbo_memory c { m with needUpload := false } pb.id = [] := by
    unfold upload_pbo_memory
    simp
  rw [h1]
  refine ⟨h2, rfl, ?_⟩
  simp only [h3, h4]
  rfl

/-- C5 witness: the sample object with `NEED_UPLOAD` pending on an OpenGL 2.1
context uploads exactly once on the first GL read map and not at all on the
second. -/
theorem c5_upload_resolved_exactly_once_witness :
    uploadCount (gst_memory_map_full ctxOpenGL21 memSampleUpload
      GST_MAP_READ_GL envAllOk).ops = 1 ∧
    (gst_memory_map_full ctxOpenGL21 memSampleUpload
      GST_MAP_READ_GL envAllOk).mem.needUpload = false ∧
    uploadCount (gst_memory_map_full ctxOpenGL21
      (gst_memory_map_full ctxOpenGL21 memSampleUpload GST_MAP_READ_GL envAllOk).mem
      GST_MAP_READ_GL envAllOk).ops = 0 :=
  c5_upload_resolved_exactly_once ctxOpenGL21 memSampleUpload pbSample envAllOk
    rfl (by decide) rfl rfl (by decide)

/-- Construction does not change the external-ownership mark. -/
theorem construct_mem_textureWrapped (c : GstGLContext) (m0 : GstGLMemoryPBO)
    (n : Nat) : (construct_mem c m0 n).textureWrapped = m0.textureWrapped := by
  unfold construct_mem gl_mem_create
  split_ifs <;> rfl

/-- Construction does not change the `NEED_DOWNLOAD` flag. -/
theorem construct_mem_needDownload (c : GstGLContext) (m0 : GstGLMemoryPBO)
    (n : Nat) : (construct_mem c m0 n).needDownload = m0.needDownload := by
  unfold construct_mem gl_mem_create
  split_ifs <;> rfl

/-- Construction does not change the `NEED_UPLOAD` flag. -/
theorem construct_mem_needUpload (c : GstGLContext) (m0 : GstGLMemoryPBO)
    (n : Nat) : (construct_mem c m0 n).needUpload = m0.needUpload := by
  unfold construct_mem gl_mem_create
  split_ifs <;> rfl

/-- C6: every call of the wrap-from-CPU-data constructor that returns an
object yields one in which the backing pointer of the staging buffer is exactly the
caller-supplied address (no copy), with `NEED_UPLOAD` set on both the object
and its staging buffer. -/
theorem c6_wrapped_wraps_caller_data (c : GstGLContext)
    (target : GstGLTextureTarget) (ty : GstVideoGLTextureType)
    (g : VideoGeometry) (newTexId d : Nat) (m : GstGLMemoryPBO)
    (h : gst_gl_memory_pbo_wrapped c target ty g newTexId d = some m) :
    m.needUpload = true ∧
    ∃ pb, m.pbo = some pb ∧ pb.data = some d ∧ pb.needUpload = true := by
  unfold gst_gl_memory_pbo_wrapped wrap_sysmem_store at h
  split at h
  · exact Option.noConfusion h
  · simp only [Option.some.injEq] at h
    subst h
    exact ⟨rfl, ⟨_, rfl, rfl, rfl⟩⟩

/-- C6 witness: wrapping address 42 on an OpenGL 2.1 context produces an
object whose staging buffer points at 42 with both `NEED_UPLOAD` flags set. -/
theorem c6_wrapped_wraps_caller_data_witness :
    ∃ m, gst_gl_memory_pbo_wrapped ctxOpenGL21 GstGLTextureTarget.twoD
        GstVideoGLTextureType.rgba gSample 5 42 = some m ∧
      (m.needUpload = true ∧
        ∃ pb, m.pbo = some pb ∧ pb.data = some 42 ∧ pb.needUpload = true) :=
  ⟨_, rfl, c6_wrapped_wraps_caller_data ctxOpenGL21 GstGLTextureTarget.twoD
    GstVideoGLTextureType.rgba gSample 5 42 _ rfl⟩

/-- C7: the wrap-texture-handle constructor returns an object with
`NEED_DOWNLOAD` set and marked externally owned (`texture_wrapped`), so
teardown destroys its handle zero times; the allocate constructor returns an
object not so marked, whose handle teardown destroys exactly once. -/
theorem c7_wrapped_handle_never_destroyed (c : GstGLContext) (textureId : Nat)
    (target : GstGLTextureTarget) (ty : GstVideoGLTextureType)
    (g : VideoGeometry) (newTexId : Nat) :
    (gst_gl_memory_pbo_wrapped_texture c textureId target ty g).needDownload = true ∧
    (gst_gl_memory_pbo_wrapped_texture c textureId target ty g).textureWrapped = true ∧
    teardown_destroy_count (gst_gl_memory_pbo_wrapped_texture c textureId target ty g) = 0 ∧
    (gst_gl_memory_pbo_alloc c target ty g newTexId).textureWrapped = false ∧
    teardown_destroy_count (gst_gl_memory_pbo_alloc c target ty g newTexId) = 1 := by
  have hw : (gst_gl_memory_pbo_wrapped_texture c textureId target ty g).textureWrapped
      = true := by
    unfold gst_gl_memory_pbo_wrapped_texture
    rw [construct_mem_textureWrapped]
  have ha : (gst_gl_memory_pbo_alloc c target ty g newTexId).textureWrapped = false := by
    unfold gst_gl_memory_pbo_alloc
    rw [construct_mem_textureWrapped]
    rfl
  refine ⟨rfl, hw, ?_, ha, ?_⟩
  · unfold teardown_destroy_count
    rw [hw]
    rfl
  · unfold teardown_destroy_count
    rw [ha]
    rfl

theorem fboGenCount_append (a b : List GLOp) :
    fboGenCount (a ++ b) = fboGenCount a + fboGenCount b := by
  simp [fboGenCount, List.countP_append]

theorem fboDelCount_append (a b : List GLOp) :
    fboDelCount (a ++ b) = fboDelCount a + fboDelCount b := by
  simp [fboDelCount, List.countP_append]

theorem fboGenCount_cons (a : GLOp) (l : List GLOp) :
    fboGenCount (a :: l) = fboGenCount l + if isFboGen a then 1 else 0 := by
  simp [fboGenCount, List.countP_cons]

theorem fboDelCount_cons (a : GLOp) (l : List GLOp) :
    fboDelCount (a :: l) = fboDelCount l + if isFboDel a then 1 else 0 := by
  simp [fboDelCount, List.countP_cons]

theorem fboGenCount_nil : fboGenCount [] = 0 := rfl

theorem fboDelCount_nil : fboDelCount [] = 0 := rfl

/-- Creating a texture neither generates nor deletes a framebuffer. -/
theorem new_texture_ops_fbo_counts (t i : Nat) :
    fboGenCount (new_texture_ops t i) = 0 ∧ fboDelCount (new_texture_ops t i) = 0 := by
  unfold new_texture_ops fboGenCount fboDelCount
  split_ifs <;>
    simp [List.countP_append, List.countP_cons, List.countP_nil, isFboGen, isFboDel]

/-- The pixel readback into the staging buffer neither generates nor deletes a
framebuffer. -/
theorem read_pixels_fbo_counts (c : GstGLContext) (m : GstGLMemoryPBO)
    (env : TransferEnv) :
    fboGenCount (read_pixels_to_pbo c m env).2 = 0 ∧
    fboDelCount (read_pixels_to_pbo c m env).2 = 0 := by
  unfold read_pixels_to_pbo fboGenCount fboDelCount
  rcases m.pbo with _ | pb <;>
    [simp;
     (split_ifs <;>
       simp [List.countP_cons, List.countP_nil, isFboGen, isFboDel])]

/-- C8: in every execution of the copy operation, the number of framebuffer
objects created equals the number destroyed: the transient framebuffer is
deleted before returning on the success path and on every failure path
(framebuffer-extension-missing, respecify size mismatch, staging unavailable,
GLES2 format rejected, and staging-map failure). -/
theorem c8_transient_fbo_always_destroyed (c : GstGLContext)
    (src : GstGLMemoryPBO) (p : CopyParams) (env : TransferEnv) (newTexId : Nat) :
    fboGenCount (gl_mem_copy_thread c src p env newTexId).ops
      = fboDelCount (gl_mem_copy_thread c src p env newTexId).ops := by
  have hnt := new_texture_ops_fbo_counts (gst_gl_texture_target_to_gl p.texTarget) newTexId
  have hrp := read_pixels_fbo_counts c src env
  simp only [gl_mem_copy_thread]
  split_ifs <;>
    simp [fboGenCount_append, fboDelCount_append, fboGenCount_cons, fboDelCount_cons,
      fboGenCount_nil, fboDelCount_nil, hnt.1, hnt.2, hrp.1, hrp.2, isFboGen, isFboDel]

/-- C9 counterexample: on a desktop OpenGL 2.0 context — which supports
neither staged upload nor staged download — wrapping CPU data nevertheless
succeeds, because the staging buffer is created for any OpenGL version.  This
refutes the final identification in the claim of the contexts on which wrapping is
well-defined with the contexts whose API supports staging transfers. -/
theorem c9_wrap_requires_pbo_counterexample :
    (gst_gl_memory_pbo_wrapped ctxOpenGL20 GstGLTextureTarget.twoD
      GstVideoGLTextureType.rgba gSample 5 42).isSome = true ∧
    CONTEXT_SUPPORTS_PBO_UPLOAD ctxOpenGL20 = false ∧
    CONTEXT_SUPPORTS_PBO_DOWNLOAD ctxOpenGL20 = false := by
  decide

/-- C9 amended: both wrap-from-CPU-data entry points store the caller pointer
through the staging-buffer field before any null check of that field, so
wrapping CPU data is well-defined exactly when a staging buffer was created at
construction — that is, on OpenGL, OpenGL3 (3.1+) or GLES3 contexts, which is
not the same set as the contexts whose API supports staging transfers. -/
theorem c9_wrap_defined_iff_pbo_amended (c : GstGLContext)
    (target : GstGLTextureTarget) (ty : GstVideoGLTextureType)
    (g : VideoGeometry) (newTexId d : Nat) (p : GLAllocationParams)
    (hv : p.flagVideo = true) (hs : p.wrapSysmem = true) :
    ((gst_gl_memory_pbo_wrapped c target ty g newTexId d).isSome
       = (USING_OPENGL c || USING_OPENGL3 c || USING_GLES3 c)) ∧
    ((gl_mem_pbo_alloc c target ty g p newTexId).isSome
       = (USING_OPENGL c || USING_OPENGL3 c || USING_GLES3 c)) := by
  constructor
  · unfold gst_gl_memory_pbo_wrapped wrap_sysmem_store construct_mem
      gl_mem_create gl_mem_new
    by_cases hc : USING_OPENGL c || USING_OPENGL3 c || USING_GLES3 c <;>
      simp [hc]
  · unfold gl_mem_pbo_alloc wrap_sysmem_store construct_mem gl_mem_create gl_mem_new
    by_cases hc : USING_OPENGL c || USING_OPENGL3 c || USING_GLES3 c <;>
      by_cases hw : p.wrapGpuHandle <;>
      by_cases hz : p.glHandle = 0 <;>
      simp [hv, hs, hc, hw, hz]

/-- C9 amended witness: with video-allocation and wrap-sysmem flags set, both
entry points succeed on a GLES3 context, matching the staging-buffer creation
condition. -/
theorem c9_wrap_defined_iff_pbo_amended_witness :
    ((gst_gl_memory_pbo_wrapped ctxGLES3 GstGLTextureTarget.twoD
        GstVideoGLTextureType.rgba gSample 5 42).isSome
      = (USING_OPENGL ctxGLES3 || USING_OPENGL3 ctxGLES3 || USING_GLES3 ctxGLES3)) ∧
    ((gl_mem_pbo_alloc ctxGLES3 GstGLTextureTarget.twoD GstVideoGLTextureType.rgba
        gSample
        { flagVideo := true, wrapGpuHandle := false, wrapSysmem := true,
          glHandle := 0, wrappedData := 99 } 5).isSome
      = (USING_OPENGL ctxGLES3 || USING_OPENGL3 ctxGLES3 || USING_GLES3 ctxGLES3)) :=
  c9_wrap_defined_iff_pbo_amended ctxGLES3 GstGLTextureTarget.twoD
    GstVideoGLTextureType.rgba gSample 5 42
    { flagVideo := true, wrapGpuHandle := false, wrapSysmem := true,
      glHandle := 0, wrappedData := 99 } rfl rfl

/-- C10 counterexample: with a negative (hence nonzero) offset of -1 and the
full size, the memory-copy operation performs a GL texture copy instead of the
system-memory fallback the claim requires for every nonzero offset: the code
tests `offset > 0`, not `offset != 0`. -/
theorem c10_copy_dispatch_counterexample :
    ((-1 : Int) ≠ 0) ∧
    gl_mem_copy
      (gl_mem_new GstGLTextureTarget.twoD GstVideoGLTextureType.rgba gSample)
      (-1) (4096 : Int) memCopyEnvAllOk = MemCopyResult.glCopy false := by
  decide

/-- C10 amended: for every external-OES source the memory-copy operation
always fails, and for every non-external source a copy request with a positive
offset or a size smaller than the full allocation is served by the
system-memory fallback copy rather than a GPU texture copy. -/
theorem c10_copy_dispatch_amended (src : GstGLMemoryPBO) (offset size : Int)
    (env : MemCopyEnv) :
    (src.texTarget = GstGLTextureTarget.externalOes →
      gl_mem_copy src offset size env = MemCopyResult.failed) ∧
    (src.texTarget ≠ GstGLTextureTarget.externalOes →
      (0 < offset ∨ size < (src.size : Int)) →
      gl_mem_copy src offset size env = MemCopyResult.sysmemFallback) := by
  unfold gl_mem_copy
  constructor
  · intro h
    simp [h]
  · intro h hos
    simp [h, hos]

/-- C10 amended witness: an external-OES source is never copied, and a
non-external source with offset 2 goes to the system-memory fallback. -/
theorem c10_copy_dispatch_amended_witness :
    gl_mem_copy memSampleExternal 0 (4096 : Int) memCopyEnvAllOk
      = MemCopyResult.failed ∧
    gl_mem_copy
      (gl_mem_new GstGLTextureTarget.twoD GstVideoGLTextureType.rgba gSample)
      2 (4096 : Int) memCopyEnvAllOk = MemCopyResult.sysmemFallback :=
  ⟨(c10_copy_dispatch_amended memSampleExternal 0 (4096 : Int)
      memCopyEnvAllOk).1 rfl,
   (c10_copy_dispatch_amended
      (gl_mem_new GstGLTextureTarget.twoD GstVideoGLTextureType.rgba gSample)
      2 (4096 : Int) memCopyEnvAllOk).2 (by decide) (Or.inl (by decide))⟩

end GstGLMemPBO
